import Mathlib

/-!
Formal model of the core of the qualtrics-mcp-server repository: the
sliding-window rate limiter (src/services/rate-limiter.ts), the HTTP request
pipeline (src/services/qualtrics-client.ts, reproduced in src/server.ts),
the export tools (src/tools/response-tools.ts) and the file-save decision
(src/utils/file-save.ts).  Stateful TypeScript is embedded as explicit
state-passing functions; the observable actions of a handler (sleeps, HTTP
calls, file saves) are recorded in an effect trace; fallible calls return
`Except`.  Times are in milliseconds.
-/

/- ===================== Rate limiter (src/services/rate-limiter.ts) ===================== -/

/-- State of `RateLimiter`: the recorded admission timestamps (`this.requests`),
the configured maximum (`this.maxRequests`), the window length
(`this.windowMs`, always 60000 in the source constructor) and the enabled flag. -/
structure RateLimiterState where
  requests : List Int
  maxRequests : Nat
  windowMs : Int
  enabled : Bool
deriving DecidableEq

/-- `Math.min(...l)` over a non-empty spread; `dflt` stands for the (unreachable
with `maxRequests ≥ 1`) empty case, where JavaScript would give `Infinity`. -/
def listMin (l : List Int) (dflt : Int) : Int :=
  match l with
  | [] => dflt
  | t :: ts => ts.foldl min t

/-- `RateLimiter.checkLimit`, one call at wall-clock time `now`.  Returns the
state after the call together with the time at which the call resolves (the
admission time): `now` itself when no wait happens, `now + waitTime` when the
window is full.  Note the source pushes the pre-wait `now`, not the time after
the wait (`this.requests.push(now)` runs after `await setTimeout` but `now` was
read before it). -/
def checkLimit (s : RateLimiterState) (now : Int) : RateLimiterState × Int :=
  if s.enabled = false then (s, now)
  else
    let pruned := s.requests.filter (fun t => now - t < s.windowMs)
    if s.maxRequests ≤ pruned.length then
      let oldest := listMin pruned now
      let waitTime := s.windowMs - (now - oldest) + 100
      ({ s with requests := pruned ++ [now] }, now + waitTime)
    else
      ({ s with requests := pruned ++ [now] }, now)

/-- Modelled from the spec (§4.1 Rate Limiter): identical to `checkLimit`
except that after the wait it appends "a fresh timestamp for now-after-wait"
instead of the pre-wait `now`.  Kept only to exhibit the divergence between
the source and the algorithm of the spec. -/
def checkLimitSpecced (s : RateLimiterState) (now : Int) : RateLimiterState × Int :=
  if s.enabled = false then (s, now)
  else
    let pruned := s.requests.filter (fun t => now - t < s.windowMs)
    if s.maxRequests ≤ pruned.length then
      let oldest := listMin pruned now
      let waitTime := s.windowMs - (now - oldest) + 100
      ({ s with requests := pruned ++ [now + waitTime] }, now + waitTime)
    else
      ({ s with requests := pruned ++ [now] }, now)

/-- A sequential driver: each call to `checkLimit` starts `gap` ms after the
previous call resolved (the caller can issue the next call no earlier than the
resolution of the previous one).  Returns the list of admission times. -/
def runCalls (s : RateLimiterState) (t : Int) : List Int → List Int
  | [] => []
  | gap :: gaps =>
      let r := checkLimit s (t + gap)
      r.2 :: runCalls r.1 r.2 gaps

/-- Same sequential driver over the spec-modelled `checkLimitSpecced`. -/
def runCallsSpecced (s : RateLimiterState) (t : Int) : List Int → List Int
  | [] => []
  | gap :: gaps =>
      let r := checkLimitSpecced s (t + gap)
      r.2 :: runCallsSpecced r.1 r.2 gaps

/- ===================== HTTP request pipeline (QualtricsClient in src/server.ts) ===================== -/

/-- Observable actions of a `QualtricsClient` call: the rate-limiter admission
(`await this.rateLimiter.checkLimit()`), arming the abort timer
(`setTimeout(() => controller.abort(), this.timeout)`), and the `fetch` itself
(the Bool records whether an abort signal is attached to the request). -/
inductive ClientEffect where
  | rateLimitCheck : ClientEffect
  | armTimeout : Nat → ClientEffect
  | httpFetch : String → Bool → ClientEffect
deriving DecidableEq

/-- The parts of a settled HTTP response the client inspects. -/
structure HttpResponse where
  status : Nat
  statusText : String
  bodyText : String
deriving DecidableEq

/-- What the network does for one `fetch`: settle with a response, or reject
with a transport error; in both cases after `settleMs` milliseconds (used to
decide whether the abort timer fires first). -/
inductive FetchBehavior where
  | responds : HttpResponse → Nat → FetchBehavior
  | networkFailure : String → Nat → FetchBehavior
deriving DecidableEq

/-- How long the fetch takes to settle. -/
def FetchBehavior.settleMs : FetchBehavior → Nat
  | .responds _ ms => ms
  | .networkFailure _ ms => ms

/-- `response.ok` of the Fetch API: status in the range 200..299. -/
def responseOk (status : Nat) : Bool :=
  decide (200 ≤ status) && decide (status < 300)

/-- The error message `makeRequest` throws on a non-2xx response. -/
def apiErrorMessage (r : HttpResponse) : String :=
  "Qualtrics API error: " ++ toString r.status ++ " " ++ r.statusText ++ " - " ++ r.bodyText

/-- `QualtricsClient.makeRequest`: awaits the rate limiter, arms an abort timer
for `timeoutMs` (the configured timeout, default 30000), issues the fetch with
the abort signal attached, then: on abort (the timer fired before the fetch
settled) fails with the distinct message "Request timeout"; on a non-2xx
response fails with `apiErrorMessage`; on success returns the body; a transport
failure propagates.  The pair is (effect trace, outcome). -/
def makeRequest (timeoutMs : Nat) (baseUrl endpoint : String) (b : FetchBehavior) :
    List ClientEffect × Except String String :=
  let effs := [ClientEffect.rateLimitCheck, ClientEffect.armTimeout timeoutMs,
               ClientEffect.httpFetch (baseUrl ++ endpoint) true]
  match b with
  | .responds r settle =>
      if timeoutMs < settle then (effs, .error "Request timeout")
      else if responseOk r.status then (effs, .ok r.bodyText)
      else (effs, .error (apiErrorMessage r))
  | .networkFailure msg settle =>
      if timeoutMs < settle then (effs, .error "Request timeout")
      else (effs, .error msg)

/-- The error message `downloadResponseExportFile` throws on a non-2xx
response; unlike `apiErrorMessage` it does not include the response body. -/
def downloadErrorMessage (r : HttpResponse) : String :=
  "Failed to download export file: " ++ toString r.status ++ " " ++ r.statusText

/-- `QualtricsClient.downloadResponseExportFile`: a bare `fetch` with only the
token header — no rate-limiter admission, no abort controller, no timer.  On a
non-2xx response it fails with `downloadErrorMessage`; otherwise it returns the
body text.  It can never produce the "Request timeout" abort, whatever
`settleMs` is. -/
def downloadResponseExportFile (baseUrl surveyId fileId : String) (b : FetchBehavior) :
    List ClientEffect × Except String String :=
  let url := baseUrl ++ "/surveys/" ++ surveyId ++ "/export-responses/" ++ fileId ++ "/file"
  let effs := [ClientEffect.httpFetch url false]
  match b with
  | .responds r _ =>
      if responseOk r.status then (effs, .ok r.bodyText)
      else (effs, .error (downloadErrorMessage r))
  | .networkFailure msg _ => (effs, .error msg)

/-- Is an effect an actual HTTP fetch (used to state "not retried": exactly one
fetch per call)? -/
def isFetchEff : ClientEffect → Bool
  | .httpFetch _ _ => true
  | _ => false

/- ===================== Export tools (src/tools/response-tools.ts, src/utils/file-save.ts) ===================== -/

/-- The fields of a `getResponseExportProgress` result the handlers read:
`progress.result.percentComplete` and `progress.result.fileId`. -/
structure ExportProgress where
  percentComplete : Int
  fileId : String
deriving DecidableEq

/-- The filter object built by `export_responses_filtered` and passed to
`startResponseExport` (each field present iff the corresponding key was
assigned on the JavaScript object). -/
structure FilterObj where
  startDate : Option String
  endDate : Option String
  filterType : Option String
  includeDisplayOrder : Option Bool
  useLabels : Option Bool
  questionIds : Option (List String)
  embeddedDataIds : Option (List String)
deriving DecidableEq

/-- `Object.keys(filters).length` for the filter object. -/
def FilterObj.keyCount (f : FilterObj) : Nat :=
  (if f.startDate.isSome then 1 else 0) + (if f.endDate.isSome then 1 else 0) +
  (if f.filterType.isSome then 1 else 0) + (if f.includeDisplayOrder.isSome then 1 else 0) +
  (if f.useLabels.isSome then 1 else 0) + (if f.questionIds.isSome then 1 else 0) +
  (if f.embeddedDataIds.isSome then 1 else 0)

/-- `Object.keys(filters).length > 0 ? filters : undefined`. -/
def filtersArg (f : FilterObj) : Option FilterObj :=
  if 0 < f.keyCount then some f else none

/-- The environment a handler runs against: what each `QualtricsClient` call
(and `JSON.parse`) returns.  `progressOf` is keyed by the progress id and the
index of the status check within its polling loop. -/
structure ExportEnv where
  start : String → Option FilterObj → Except String String
  progressOf : String → Nat → Except String ExportProgress
  download : String → Except String String
  parseJson : String → Except String Unit

/-- Observable actions of an export tool handler. -/
inductive ToolEffect where
  | sleep : Nat → ToolEffect
  | startExport : String → Option FilterObj → ToolEffect
  | checkStatus : String → ToolEffect
  | downloadFile : String → ToolEffect
  | saveFile : String → ToolEffect
deriving DecidableEq

def isStartEff : ToolEffect → Bool
  | .startExport _ _ => true
  | _ => false

def isCheckStatusEff : ToolEffect → Bool
  | .checkStatus _ => true
  | _ => false

def isDownloadEff : ToolEffect → Bool
  | .downloadFile _ => true
  | _ => false

/-- The polling loop (`while (attempts < maxAttempts) { await sleep(10000);
...getResponseExportProgress...; if (percentComplete === 100) ...; attempts++ }`),
written on the remaining attempt budget.  `attempt` is the index of the next
status check.  Outcome: `some p` when a check reported percent complete exactly
100 (its result is used for the download), `none` when the budget was exhausted,
`.error` when a status check threw. -/
def pollLoop (env : ExportEnv) (progressId : String) (attempt : Nat) :
    Nat → List ToolEffect × Except String (Option ExportProgress)
  | 0 => ([], Except.ok none)
  | remaining + 1 =>
      let effs := [ToolEffect.sleep 10000, ToolEffect.checkStatus progressId]
      match env.progressOf progressId attempt with
      | .error msg => (effs, .error msg)
      | .ok p =>
          if p.percentComplete = 100 then (effs, .ok (some p))
          else
            let rest := pollLoop env progressId (attempt + 1) remaining
            (effs ++ rest.1, rest.2)

/-- The trace the polling loop leaves after `n` status checks. -/
def checkTrace (progressId : String) : Nat → List ToolEffect
  | 0 => []
  | n + 1 => [ToolEffect.sleep 10000, ToolEffect.checkStatus progressId] ++ checkTrace progressId n

/-- JavaScript truthiness of an optional string (`undefined` and `""` are falsy). -/
def optTruthy : Option String → Bool
  | some s => !(s == "")
  | none => false

/-- `o` if truthy, else absent (models `if (x) obj.k = x`). -/
def truthyOrNone (o : Option String) : Option String :=
  if optTruthy o then o else none

/-- `new Date().toISOString().replace(/[:.]/g, "-")`. -/
def sanitizeTimestamp (ts : String) : String :=
  ts.map (fun c => if c == ':' || c == '.' then '-' else c)

/-- The file extension picked by `file-save.ts`: `format === "json" ? "json" : "csv"`. -/
def extFor (format : String) : String :=
  if format == "json" then "json" else "csv"

/-- What `saveExportToFile` returns to the handler (the `fileSizeMB` display
string, a floating-point formatting, is omitted; no claim depends on it). -/
structure SaveResult where
  filePath : String
  fileSizeBytes : Nat
  wasAutoSaved : Bool
deriving DecidableEq

/-- `saveExportToFile` of src/utils/file-save.ts, with the file system replaced
by the pure path computation: `homedir` stands for `os.homedir()` and
`isoTimestamp` for `new Date().toISOString()`.  `Buffer.byteLength(fileData,
"utf8")` is the UTF-8 byte size of the string. -/
def saveExportToFile (fileData surveyId format : String) (saveToFile : Option String)
    (suffix : Option String) (homedir isoTimestamp : String) : SaveResult :=
  let fileSizeBytes := fileData.utf8ByteSize
  let isLargeFile : Bool := decide (100 * 1024 < fileSizeBytes)
  let filePath :=
    if optTruthy saveToFile then
      let s := saveToFile.getD ""
      let filename := if s.contains '.' then s else s ++ "." ++ extFor format
      if filename.startsWith "/" then filename
      else homedir ++ "/Downloads/" ++ filename
    else
      let suffixStr := if optTruthy suffix then "_" ++ suffix.getD "" else ""
      let filename := "survey_" ++ surveyId ++ suffixStr ++ "_" ++ sanitizeTimestamp isoTimestamp
        ++ "." ++ extFor format
      homedir ++ "/Downloads/" ++ filename
  { filePath := filePath, fileSizeBytes := fileSizeBytes,
    wasAutoSaved := isLargeFile && !(optTruthy saveToFile) }

/-- The inline `data` field of a completed export: the parsed JSON value (kept
abstract) when `args.format === "json"`, otherwise the raw text. -/
inductive InlineData where
  | jsonParsed : InlineData
  | raw : String → InlineData
deriving DecidableEq

/-- The result object a handler returns (the fields the claims are about; the
source objects also echo messages, tips and the applied filters, which carry no
additional decision content). `errorResult` is the only `isError: true` case. -/
inductive ToolResult where
  | started : String → ToolResult
  | completedSaved : Option String → String → Nat → Bool → String → String → ToolResult
  | completedInline : Option String → Nat → InlineData → String → String → ToolResult
  | timeout : String → ToolResult
  | completedViaFallback : String → String → Nat → String → String → ToolResult
  | fallbackTimeout : String → String → ToolResult
  | errorResult : String → ToolResult
deriving DecidableEq

/-- Substring test, as JavaScript `String.prototype.includes`. -/
def strIncludes (s pat : String) : Bool :=
  decide (pat.data <:+: s.data)

/-- The tail appended to the `export_responses` double-failure message
(`errorMessage.toLowerCase().includes("timeout") || ...includes("too large")`). -/
def exportHelpText (errorMessage : String) : String :=
  if strIncludes errorMessage.toLower "timeout" || strIncludes errorMessage.toLower "too large" then
    " TIP: Try using \u0027export_responses_filtered\u0027 with date ranges, specific questions, or completion filters to reduce file size."
  else
    " You may need to log into Qualtrics directly to export manually if the issue persists."

/-- Arguments of the `export_responses` tool. -/
structure PlainArgs where
  surveyId : String
  format : Option String
  waitForCompletion : Option Bool
  saveToFile : Option String
deriving DecidableEq

/-- The `catch` block of `export_responses`: start a CSV export with no
filters, poll it with a fresh 30-attempt budget, save the artifact
unconditionally, and report `completed_via_fallback` carrying the original
error; on exhaustion report `fallback_timeout`; if the fallback itself throws,
produce the combined `isError` message. -/
def runFallbackPlain (env : ExportEnv) (surveyId errorMessage homedir isoTimestamp : String) :
    List ToolEffect × ToolResult :=
  let failMsg := fun (fmsg : String) =>
    "Error exporting responses: " ++ errorMessage ++ ". CSV fallback also failed: " ++ fmsg
      ++ "." ++ exportHelpText errorMessage
  let startEffs := [ToolEffect.startExport "csv" none]
  match env.start "csv" none with
  | .error fmsg => (startEffs, .errorResult (failMsg fmsg))
  | .ok fpid =>
      match pollLoop env fpid 0 30 with
      | (tr, .error fmsg) => (startEffs ++ tr, .errorResult (failMsg fmsg))
      | (tr, .ok none) => (startEffs ++ tr, .fallbackTimeout errorMessage fpid)
      | (tr, .ok (some p)) =>
          match env.download p.fileId with
          | .error fmsg =>
              (startEffs ++ tr ++ [ToolEffect.downloadFile p.fileId], .errorResult (failMsg fmsg))
          | .ok fileData =>
              let saved := saveExportToFile fileData surveyId "csv" none none homedir isoTimestamp
              (startEffs ++ tr ++ [ToolEffect.downloadFile p.fileId, ToolEffect.saveFile saved.filePath],
               .completedViaFallback errorMessage saved.filePath saved.fileSizeBytes fpid p.fileId)

/-- The `export_responses` tool handler.  The try block: start the export in
the requested format (default "json"); return `started` if
`waitForCompletion` is not truthy; otherwise poll every 10000 ms up to 30
times; on percent complete exactly 100, download using the `fileId` of the
completing status check; save to a file when `saveToFile` is truthy or the
payload exceeds 100 KiB, else return it inline (parsing it when
`args.format === "json"` — note: the strict comparison, so an omitted format
is exported as JSON but returned unparsed); any throw falls to
`runFallbackPlain` with the thrown message. -/
def exportResponsesTool (env : ExportEnv) (args : PlainArgs) (homedir isoTimestamp : String) :
    List ToolEffect × ToolResult :=
  let fmt := args.format.getD "json"
  let startEff := [ToolEffect.startExport fmt none]
  match env.start fmt none with
  | .error msg =>
      let fb := runFallbackPlain env args.surveyId msg homedir isoTimestamp
      (startEff ++ fb.1, fb.2)
  | .ok progressId =>
      if args.waitForCompletion.getD false = false then
        (startEff, .started progressId)
      else
        match pollLoop env progressId 0 30 with
        | (tr, .error msg) =>
            let fb := runFallbackPlain env args.surveyId msg homedir isoTimestamp
            (startEff ++ tr ++ fb.1, fb.2)
        | (tr, .ok none) => (startEff ++ tr, .timeout progressId)
        | (tr, .ok (some p)) =>
            match env.download p.fileId with
            | .error msg =>
                let fb := runFallbackPlain env args.surveyId msg homedir isoTimestamp
                (startEff ++ tr ++ [ToolEffect.downloadFile p.fileId] ++ fb.1, fb.2)
            | .ok fileData =>
                let fileSizeBytes := fileData.utf8ByteSize
                if optTruthy args.saveToFile ∨ 100 * 1024 < fileSizeBytes then
                  let saved := saveExportToFile fileData args.surveyId fmt args.saveToFile
                    none homedir isoTimestamp
                  (startEff ++ tr ++ [ToolEffect.downloadFile p.fileId, ToolEffect.saveFile saved.filePath],
                   .completedSaved args.format saved.filePath saved.fileSizeBytes saved.wasAutoSaved
                     progressId p.fileId)
                else
                  if args.format = some "json" then
                    match env.parseJson fileData with
                    | .error msg =>
                        let fb := runFallbackPlain env args.surveyId msg homedir isoTimestamp
                        (startEff ++ tr ++ [ToolEffect.downloadFile p.fileId] ++ fb.1, fb.2)
                    | .ok _ =>
                        (startEff ++ tr ++ [ToolEffect.downloadFile p.fileId],
                         .completedInline args.format fileSizeBytes InlineData.jsonParsed
                           progressId p.fileId)
                  else
                    (startEff ++ tr ++ [ToolEffect.downloadFile p.fileId],
                     .completedInline args.format fileSizeBytes (InlineData.raw fileData)
                       progressId p.fileId)

/-- Arguments of the `export_responses_filtered` tool. -/
structure FilteredArgs where
  surveyId : String
  format : Option String
  waitForCompletion : Option Bool
  saveToFile : Option String
  startDate : Option String
  endDate : Option String
  filterType : Option String
  includeDisplayOrder : Option Bool
  useLabels : Option Bool
  questionIds : Option (List String)
  embeddedDataIds : Option (List String)
deriving DecidableEq

/-- `if (args.filterType && args.filterType !== "all") filters.filterType =
args.filterType === "complete" ? "finished" : "unfinished"`. -/
def mapFilterType : Option String → Option String
  | some ft => if ft != "" && ft != "all" then
      some (if ft == "complete" then "finished" else "unfinished")
    else none
  | none => none

/-- The filter object the try block of `export_responses_filtered` builds from
its arguments. -/
def buildFilters (args : FilteredArgs) : FilterObj :=
  { startDate := truthyOrNone args.startDate
    endDate := truthyOrNone args.endDate
    filterType := mapFilterType args.filterType
    includeDisplayOrder := args.includeDisplayOrder
    useLabels := args.useLabels
    questionIds :=
      match args.questionIds with
      | some l => if 0 < l.length then some l else none
      | none => none
    embeddedDataIds :=
      match args.embeddedDataIds with
      | some l => if 0 < l.length then some l else none
      | none => none }

/-- The reduced filter object the catch block of `export_responses_filtered`
builds: only the date range and the completion-status filter are kept;
question-subset, embedded-data, display-order and label filters are dropped. -/
def buildFallbackFilters (args : FilteredArgs) : FilterObj :=
  { startDate := truthyOrNone args.startDate
    endDate := truthyOrNone args.endDate
    filterType := mapFilterType args.filterType
    includeDisplayOrder := none
    useLabels := none
    questionIds := none
    embeddedDataIds := none }

/-- The `catch` block of `export_responses_filtered`: start a CSV export with
the reduced filters, poll with a fresh 30-attempt budget, save with the
"filtered" suffix, report `completed_via_fallback` with the original error;
exhaustion gives `fallback_timeout`; a throw gives the combined `isError`
message (this one has no TIP branch). -/
def runFallbackFiltered (env : ExportEnv) (args : FilteredArgs)
    (errorMessage homedir isoTimestamp : String) : List ToolEffect × ToolResult :=
  let fbFilters := filtersArg (buildFallbackFilters args)
  let failMsg := fun (fmsg : String) =>
    "Error exporting filtered responses: " ++ errorMessage ++ ". CSV fallback also failed: "
      ++ fmsg ++ ". You may need to log into Qualtrics directly to export manually if the issue persists."
  let startEffs := [ToolEffect.startExport "csv" fbFilters]
  match env.start "csv" fbFilters with
  | .error fmsg => (startEffs, .errorResult (failMsg fmsg))
  | .ok fpid =>
      match pollLoop env fpid 0 30 with
      | (tr, .error fmsg) => (startEffs ++ tr, .errorResult (failMsg fmsg))
      | (tr, .ok none) => (startEffs ++ tr, .fallbackTimeout errorMessage fpid)
      | (tr, .ok (some p)) =>
          match env.download p.fileId with
          | .error fmsg =>
              (startEffs ++ tr ++ [ToolEffect.downloadFile p.fileId], .errorResult (failMsg fmsg))
          | .ok fileData =>
              let saved := saveExportToFile fileData args.surveyId "csv" none (some "filtered")
                homedir isoTimestamp
              (startEffs ++ tr ++ [ToolEffect.downloadFile p.fileId, ToolEffect.saveFile saved.filePath],
               .completedViaFallback errorMessage saved.filePath saved.fileSizeBytes fpid p.fileId)

/-- The `export_responses_filtered` tool handler; same skeleton as
`exportResponsesTool` but the start call carries the built filter object (or
nothing when empty) and saves carry the "filtered" suffix. -/
def exportResponsesFilteredTool (env : ExportEnv) (args : FilteredArgs)
    (homedir isoTimestamp : String) : List ToolEffect × ToolResult :=
  let fmt := args.format.getD "json"
  let fArg := filtersArg (buildFilters args)
  let startEff := [ToolEffect.startExport fmt fArg]
  match env.start fmt fArg with
  | .error msg =>
      let fb := runFallbackFiltered env args msg homedir isoTimestamp
      (startEff ++ fb.1, fb.2)
  | .ok progressId =>
      if args.waitForCompletion.getD false = false then
        (startEff, .started progressId)
      else
        match pollLoop env progressId 0 30 with
        | (tr, .error msg) =>
            let fb := runFallbackFiltered env args msg homedir isoTimestamp
            (startEff ++ tr ++ fb.1, fb.2)
        | (tr, .ok none) => (startEff ++ tr, .timeout progressId)
        | (tr, .ok (some p)) =>
            match env.download p.fileId with
            | .error msg =>
                let fb := runFallbackFiltered env args msg homedir isoTimestamp
                (startEff ++ tr ++ [ToolEffect.downloadFile p.fileId] ++ fb.1, fb.2)
            | .ok fileData =>
                let fileSizeBytes := fileData.utf8ByteSize
                if optTruthy args.saveToFile ∨ 100 * 1024 < fileSizeBytes then
                  let saved := saveExportToFile fileData args.surveyId fmt args.saveToFile
                    (some "filtered") homedir isoTimestamp
                  (startEff ++ tr ++ [ToolEffect.downloadFile p.fileId, ToolEffect.saveFile saved.filePath],
                   .completedSaved args.format saved.filePath saved.fileSizeBytes saved.wasAutoSaved
                     progressId p.fileId)
                else
                  if args.format = some "json" then
                    match env.parseJson fileData with
                    | .error msg =>
                        let fb := runFallbackFiltered env args msg homedir isoTimestamp
                        (startEff ++ tr ++ [ToolEffect.downloadFile p.fileId] ++ fb.1, fb.2)
                    | .ok _ =>
                        (startEff ++ tr ++ [ToolEffect.downloadFile p.fileId],
                         .completedInline args.format fileSizeBytes InlineData.jsonParsed
                           progressId p.fileId)
                  else
                    (startEff ++ tr ++ [ToolEffect.downloadFile p.fileId],
                     .completedInline args.format fileSizeBytes (InlineData.raw fileData)
                       progressId p.fileId)

/- ===================== Concrete demo environments ===================== -/

/-- A string of `n` ASCII bytes (used to build payloads of exact byte sizes). -/
def payloadOfSize (n : Nat) : String := String.mk (List.replicate n 'a')

/-- Demo: the remote job reports percent complete 30, then 60, then 100; each
status check returns a distinct file id so the downloaded one is identifiable. -/
def pollDemoEnv : ExportEnv :=
  { start := fun _ _ => .ok "PID-1"
    progressOf := fun _ n =>
      .ok ⟨if n = 0 then 30 else if n = 1 then 60 else 100, "FID-" ++ toString n⟩
    download := fun _ => .ok "data"
    parseJson := fun _ => .ok () }

/-- Demo: the job completes at once but its payload is not valid JSON. -/
def badJsonEnv : ExportEnv :=
  { start := fun _ _ => .ok "PID-9"
    progressOf := fun _ _ => .ok ⟨100, "FID-9"⟩
    download := fun _ => .ok "not-json"
    parseJson := fun _ => .error "Unexpected token" }

/-- Demo: the job never progresses past 50 percent. -/
def stuckEnv : ExportEnv :=
  { start := fun _ _ => .ok "PID-6"
    progressOf := fun _ _ => .ok ⟨50, "F"⟩
    download := fun _ => .ok "d"
    parseJson := fun _ => .ok () }

/-- Demo: starting any non-CSV export throws, the CSV fallback works. -/
def failingPrimaryEnv : ExportEnv :=
  { start := fun fmt _ => if fmt == "csv" then .ok "FPID-4" else .error "boom"
    progressOf := fun _ _ => .ok ⟨100, "FID-4"⟩
    download := fun _ => .ok "csvdata"
    parseJson := fun _ => .ok () }

/-- Demo: the downloaded payload is one byte over the 100 KiB threshold. -/
def bigPayloadEnv : ExportEnv :=
  { start := fun _ _ => .ok "PID-8"
    progressOf := fun _ _ => .ok ⟨100, "FID-8"⟩
    download := fun _ => .ok (payloadOfSize (100 * 1024 + 1))
    parseJson := fun _ => .ok () }

/-- Demo: the downloaded payload is exactly 100 KiB. -/
def boundaryPayloadEnv : ExportEnv :=
  { start := fun _ _ => .ok "PID-8b"
    progressOf := fun _ _ => .ok ⟨100, "FID-8b"⟩
    download := fun _ => .ok (payloadOfSize (100 * 1024))
    parseJson := fun _ => .ok () }

/- ===================== Shared helper lemmas ===================== -/

theorem payloadOfSize_utf8ByteSize (n : Nat) : (payloadOfSize n).utf8ByteSize = n := by
  show String.utf8ByteSize.go (List.replicate n 'a') = n
  induction n with
  | zero => rfl
  | succ k ih =>
      simp only [List.replicate, String.utf8ByteSize.go]
      rw [ih, show Char.utf8Size 'a' = 1 from by decide]

theorem pollLoop_completes (env : ExportEnv) (pid : String) (p : ExportProgress) :
    ∀ (i attempt fuel : Nat), i < fuel →
    (∀ j, j < i → ∃ q, env.progressOf pid (attempt + j) = .ok q ∧ q.percentComplete ≠ 100) →
    env.progressOf pid (attempt + i) = .ok p → p.percentComplete = 100 →
    pollLoop env pid attempt fuel = (checkTrace pid (i + 1), .ok (some p)) := by
  intro i
  induction i with
  | zero =>
      intro attempt fuel hfuel _ hdone hp
      match fuel, hfuel with
      | f + 1, _ =>
        simp only [pollLoop]
        rw [show attempt + 0 = attempt from rfl] at hdone
        rw [hdone]
        simp [hp, checkTrace]
  | succ k ih =>
      intro attempt fuel hfuel hprev hdone hp
      match fuel, hfuel with
      | f + 1, hfuel =>
        obtain ⟨q0, hq0, hq0ne⟩ := hprev 0 (Nat.succ_pos k)
        rw [show attempt + 0 = attempt from rfl] at hq0
        simp only [pollLoop]
        rw [hq0]
        simp only [hq0ne, if_neg]
        have hrec := ih (attempt + 1) f (Nat.lt_of_succ_lt_succ hfuel)
          (fun j hj => by
            obtain ⟨q, hq, hqne⟩ := hprev (j + 1) (Nat.succ_lt_succ hj)
            exact ⟨q, by rw [show attempt + 1 + j = attempt + (j + 1) from by omega]; exact hq, hqne⟩)
          (by rw [show attempt + 1 + k = attempt + (k + 1) from by omega]; exact hdone) hp
        rw [hrec]
        simp [checkTrace]

theorem pollLoop_timesOut (env : ExportEnv) (pid : String) :
    ∀ (fuel attempt : Nat),
    (∀ j, j < fuel → ∃ q, env.progressOf pid (attempt + j) = .ok q ∧ q.percentComplete ≠ 100) →
    pollLoop env pid attempt fuel = (checkTrace pid fuel, .ok none) := by
  intro fuel
  induction fuel with
  | zero => intro attempt _; rfl
  | succ f ih =>
      intro attempt hnever
      obtain ⟨q0, hq0, hq0ne⟩ := hnever 0 (Nat.succ_pos f)
      rw [show attempt + 0 = attempt from rfl] at hq0
      simp only [pollLoop]
      rw [hq0]
      simp only [hq0ne, if_neg]
      rw [ih (attempt + 1) (fun j hj => by
        obtain ⟨q, hq, hqne⟩ := hnever (j + 1) (Nat.succ_lt_succ hj)
        exact ⟨q, by rw [show attempt + 1 + j = attempt + (j + 1) from by omega]; exact hq, hqne⟩)]
      simp [checkTrace]

theorem mem_checkTrace (pid : String) (e : ToolEffect) :
    ∀ n, e ∈ checkTrace pid n → e = .sleep 10000 ∨ e = .checkStatus pid := by
  intro n
  induction n with
  | zero => intro h; cases h
  | succ k ih =>
      intro h
      simp only [checkTrace, List.cons_append, List.nil_append, List.mem_cons] at h
      rcases h with h | h | h
      · exact Or.inl h
      · exact Or.inr h
      · exact ih h

theorem checkTrace_countP (pid : String) (p : ToolEffect → Bool)
    (h1 : p (.sleep 10000) = false) (h2 : p (.checkStatus pid) = false) :
    ∀ n, (checkTrace pid n).countP p = 0 := by
  intro n
  induction n with
  | zero => rfl
  | succ k ih => simp [checkTrace, List.countP_cons, h1, h2, ih]

/- ===================== Rate limiter claims ===================== -/

/-- Claim C1 (refuted; the code contradicts the stated invariant): with the
limiter enabled and maxPerWindow = 1, a sequential run of three acquire calls
— two issued at time 0, the third issued as soon as the second resolves —
yields admission times 0, 60100 and 60100: the sliding 60-second window
[60100, 120100) contains two admitted operations, exceeding the configured
maximum of one.  The cause is the stale pre-wait timestamp recorded after the
wait, which has already expired when the next caller prunes.  Under the
spec-modelled variant (fresh post-wait timestamp) the same run admits at 0,
60100 and 120200, and the same window holds exactly one admission. -/
theorem c1_sliding_window_bound_violated :
    runCalls ⟨[], 1, 60000, true⟩ 0 [0, 0, 0] = [0, 60100, 60100] ∧
    ((runCalls ⟨[], 1, 60000, true⟩ 0 [0, 0, 0]).filter
        (fun a => decide (60100 ≤ a) && decide (a < 120100))).length = 2 ∧
    runCallsSpecced ⟨[], 1, 60000, true⟩ 0 [0, 0, 0] = [0, 60100, 120200] ∧
    ((runCallsSpecced ⟨[], 1, 60000, true⟩ 0 [0, 0, 0]).filter
        (fun a => decide (60100 ≤ a) && decide (a < 120100))).length = 1 :=
  ⟨by decide, by decide, by decide, by decide⟩

/-- Claim C7 (refuted; the code appends the pre-wait time): when the pruned
window is at capacity, `checkLimit` does suspend for
windowDurationMs - (now - oldestTimestamp) + 100 ms (a call issued at time 1
against a full window holding timestamp 0 resolves at 1 + 60099 = 60100), but
it then appends the pre-wait time 1, not the post-wait time 60100 the claim
states; the spec-modelled variant appends 60100. -/
theorem c7_appends_pre_wait_timestamp :
    (checkLimit ⟨[0], 1, 60000, true⟩ 1).2 = 60100 ∧
    (checkLimit ⟨[0], 1, 60000, true⟩ 1).1.requests = [0, 1] ∧
    (checkLimitSpecced ⟨[0], 1, 60000, true⟩ 1).1.requests = [0, 60100] ∧
    (1 : Int) ≠ 60100 :=
  ⟨by decide, by decide, by decide, by decide⟩

/-- Claim C9: whenever the window is empty or every recorded admission
timestamp lies at least 60000 ms in the past, `checkLimit` with
maxPerWindow ≥ 1 admits immediately — it resolves at `now` itself (no wait)
and the new window holds just the fresh timestamp. -/
theorem c9_expired_window_admits_immediately (s : RateLimiterState) (now : Int)
    (hen : s.enabled = true) (hmax : 1 ≤ s.maxRequests) (hwin : s.windowMs = 60000)
    (hold : ∀ t ∈ s.requests, (60000 : Int) ≤ now - t) :
    checkLimit s now = ({ s with requests := [now] }, now) := by
  have hpr : s.requests.filter (fun t => now - t < s.windowMs) = [] := by
    rw [List.filter_eq_nil_iff]
    intro t ht
    have := hold t ht
    simp only [decide_eq_true_eq, not_lt, hwin]
    omega
  have hnle : ¬ s.maxRequests ≤ ([] : List Int).length := by
    simp
    omega
  simp only [checkLimit, hen, hpr]
  simp [hnle]
  intro h
  omega

/-- Claim C9, witness: a window holding one timestamp from exactly 60000 ms ago
admits a call at time 60000 immediately. -/
theorem c9_expired_window_admits_immediately_witness :
    checkLimit ⟨[0], 1, 60000, true⟩ 60000 = (⟨[60000], 1, 60000, true⟩, 60000) :=
  c9_expired_window_admits_immediately ⟨[0], 1, 60000, true⟩ 60000 rfl (by decide) rfl (by decide)

/- ===================== HTTP pipeline claims ===================== -/

theorem apiErrorMessage_ne_timeout (r : HttpResponse) : apiErrorMessage r ≠ "Request timeout" := by
  intro h
  have hl := congrArg String.length h
  simp [apiErrorMessage, String.length_append,
    show (" " : String).length = 1 from rfl, show (" - " : String).length = 3 from rfl,
    show ("Request timeout" : String).length = 15 from rfl,
    show ("Qualtrics API error: " : String).length = 21 from rfl] at hl
  omega

theorem makeRequest_fst (timeoutMs : Nat) (baseUrl endpoint : String) (b : FetchBehavior) :
    (makeRequest timeoutMs baseUrl endpoint b).1 =
      [ClientEffect.rateLimitCheck, ClientEffect.armTimeout timeoutMs,
       ClientEffect.httpFetch (baseUrl ++ endpoint) true] := by
  cases b with
  | responds r ms =>
      simp only [makeRequest]
      split
      · rfl
      · split <;> rfl
  | networkFailure m ms =>
      simp only [makeRequest]
      split <;> rfl

theorem downloadFile_fst (baseUrl surveyId fileId : String) (b : FetchBehavior) :
    (downloadResponseExportFile baseUrl surveyId fileId b).1 =
      [ClientEffect.httpFetch (baseUrl ++ "/surveys/" ++ surveyId ++ "/export-responses/"
        ++ fileId ++ "/file") false] := by
  cases b with
  | responds r ms =>
      simp only [downloadResponseExportFile]
      split <;> rfl
  | networkFailure m ms => rfl

/-- Claim C2 (refuted for the export-file download): a successful download
whose fetch settles after 40000 ms — beyond the default 30000 ms deadline —
still returns its payload: its trace holds a single bare fetch with no
rate-limiter admission and no abort timer, while the same fetch behaviour
through `makeRequest` is aborted with the distinct "Request timeout" error. -/
theorem c2_download_skips_admission_and_deadline :
    downloadResponseExportFile "B" "SV" "F" (.responds ⟨200, "OK", "payload"⟩ 40000) =
      ([ClientEffect.httpFetch "B/surveys/SV/export-responses/F/file" false], .ok "payload") ∧
    30000 < 40000 ∧
    makeRequest 30000 "B" "/x" (.responds ⟨200, "OK", "payload"⟩ 40000) =
      ([ClientEffect.rateLimitCheck, ClientEffect.armTimeout 30000,
        ClientEffect.httpFetch "B/x" true], .error "Request timeout") :=
  ⟨by rfl, by decide, by rfl⟩

/-- Claim C2, amended: every call through `makeRequest` first awaits
rate-limiter admission, then arms the configured hard deadline and issues the
fetch with the abort signal; when the fetch settles after the deadline the call
fails with "Request timeout", a message distinct from every API error message;
the export-file download, by contrast, issues a single bare fetch with neither
admission nor deadline. -/
theorem c2_makeRequest_admission_gate_and_hard_deadline (timeoutMs : Nat)
    (baseUrl endpoint surveyId fileId : String) (b : FetchBehavior)
    (hlate : timeoutMs < b.settleMs) :
    (makeRequest timeoutMs baseUrl endpoint b).1 =
      [ClientEffect.rateLimitCheck, ClientEffect.armTimeout timeoutMs,
       ClientEffect.httpFetch (baseUrl ++ endpoint) true] ∧
    (makeRequest timeoutMs baseUrl endpoint b).2 = Except.error "Request timeout" ∧
    (∀ r : HttpResponse, apiErrorMessage r ≠ "Request timeout") ∧
    (downloadResponseExportFile baseUrl surveyId fileId b).1 =
      [ClientEffect.httpFetch (baseUrl ++ "/surveys/" ++ surveyId ++ "/export-responses/"
        ++ fileId ++ "/file") false] := by
  refine ⟨makeRequest_fst timeoutMs baseUrl endpoint b, ?_, apiErrorMessage_ne_timeout,
    downloadFile_fst baseUrl surveyId fileId b⟩
  cases b with
  | responds r ms =>
      simp only [FetchBehavior.settleMs] at hlate
      simp [makeRequest, hlate]
  | networkFailure m ms =>
      simp only [FetchBehavior.settleMs] at hlate
      simp [makeRequest, hlate]

/-- Claim C2, witness: the amended theorem at a fetch that settles at 40000 ms
against the default 30000 ms deadline. -/
theorem c2_makeRequest_admission_gate_and_hard_deadline_witness :
    (makeRequest 30000 "B" "/x" (.responds ⟨200, "OK", "payload"⟩ 40000)).1 =
      [ClientEffect.rateLimitCheck, ClientEffect.armTimeout 30000,
       ClientEffect.httpFetch ("B" ++ "/x") true] ∧
    (makeRequest 30000 "B" "/x" (.responds ⟨200, "OK", "payload"⟩ 40000)).2 =
      Except.error "Request timeout" ∧
    (downloadResponseExportFile "B" "SV" "F" (.responds ⟨200, "OK", "payload"⟩ 40000)).1 =
      [ClientEffect.httpFetch ("B" ++ "/surveys/" ++ "SV" ++ "/export-responses/" ++ "F"
        ++ "/file") false] :=
  have h := c2_makeRequest_admission_gate_and_hard_deadline 30000 "B" "/x" "SV" "F"
    (.responds ⟨200, "OK", "payload"⟩ 40000) (by decide)
  ⟨h.1, h.2.1, h.2.2.2⟩

/-- Claim C3 (refuted for the export-file download): on a 500 response with
body "boom", the download fails with a message carrying the status code and
status text but NOT the response body, while `makeRequest` on the same
response embeds the body verbatim. -/
theorem c3_download_error_omits_response_body :
    (downloadResponseExportFile "B" "SV" "F"
        (.responds ⟨500, "Internal Server Error", "boom"⟩ 0)).2 =
      .error "Failed to download export file: 500 Internal Server Error" ∧
    ("boom".data <:+: (apiErrorMessage ⟨500, "Internal Server Error", "boom"⟩).data) ∧
    ¬ ("boom".data <:+: "Failed to download export file: 500 Internal Server Error".data) :=
  ⟨by rfl, by decide, by decide⟩

/-- Claim C3, amended: a non-2xx response through `makeRequest` (settling
within the deadline) fails with the API error carrying the status code, status
text and response body verbatim, and the call issues exactly one fetch (no
retry); the export-file download on a non-2xx fails with a message carrying
only the status code and status text — the body is omitted — also with exactly
one fetch. -/
theorem c3_api_error_carries_status_and_body_no_retry (timeoutMs : Nat)
    (baseUrl endpoint surveyId fileId : String) (r : HttpResponse) (settle : Nat)
    (hok : responseOk r.status = false) (hsettle : ¬ timeoutMs < settle) :
    (makeRequest timeoutMs baseUrl endpoint (.responds r settle)).2 =
      .error ("Qualtrics API error: " ++ toString r.status ++ " " ++ r.statusText
        ++ " - " ++ r.bodyText) ∧
    (r.bodyText.data <:+: (apiErrorMessage r).data) ∧
    ((makeRequest timeoutMs baseUrl endpoint (.responds r settle)).1.countP isFetchEff = 1) ∧
    (downloadResponseExportFile baseUrl surveyId fileId (.responds r settle)).2 =
      .error ("Failed to download export file: " ++ toString r.status ++ " " ++ r.statusText) ∧
    ((downloadResponseExportFile baseUrl surveyId fileId (.responds r settle)).1.countP
      isFetchEff = 1) := by
  refine ⟨?_, ?_, ?_, ?_, ?_⟩
  · simp [makeRequest, hsettle, hok, apiErrorMessage]
  · exact ⟨("Qualtrics API error: " ++ toString r.status ++ " " ++ r.statusText ++ " - ").data,
      [], by simp [apiErrorMessage, String.data_append]⟩
  · rw [makeRequest_fst]; rfl
  · simp [downloadResponseExportFile, hok, downloadErrorMessage]
  · rw [downloadFile_fst]; rfl

/-- Claim C3, witness: the amended theorem at a 500 response with body "boom"
settling immediately. -/
theorem c3_api_error_carries_status_and_body_no_retry_witness :
    (makeRequest 30000 "B" "/x" (.responds ⟨500, "Internal Server Error", "boom"⟩ 0)).2 =
      .error ("Qualtrics API error: " ++ toString 500 ++ " " ++ "Internal Server Error"
        ++ " - " ++ "boom") ∧
    ("boom".data <:+: (apiErrorMessage ⟨500, "Internal Server Error", "boom"⟩).data) ∧
    ((makeRequest 30000 "B" "/x"
      (.responds ⟨500, "Internal Server Error", "boom"⟩ 0)).1.countP isFetchEff = 1) ∧
    (downloadResponseExportFile "B" "SV" "F"
        (.responds ⟨500, "Internal Server Error", "boom"⟩ 0)).2 =
      .error ("Failed to download export file: " ++ toString 500 ++ " "
        ++ "Internal Server Error") ∧
    ((downloadResponseExportFile "B" "SV" "F"
      (.responds ⟨500, "Internal Server Error", "boom"⟩ 0)).1.countP isFetchEff = 1) :=
  c3_api_error_carries_status_and_body_no_retry 30000 "B" "/x" "SV" "F"
    ⟨500, "Internal Server Error", "boom"⟩ 0 (by decide) (by decide)

/- ===================== Export tool claims ===================== -/

theorem saveExportToFile_fileSizeBytes (d s f : String) (st su : Option String) (h ts : String) :
    (saveExportToFile d s f st su h ts).fileSizeBytes = d.utf8ByteSize := rfl

theorem saveExportToFile_wasAutoSaved_auto (d s f : String) (su : Option String) (h ts : String)
    (hlarge : 100 * 1024 < d.utf8ByteSize) :
    (saveExportToFile d s f none su h ts).wasAutoSaved = true := by
  simp [saveExportToFile, optTruthy, hlarge]

theorem runFallbackPlain_starts_csv (env : ExportEnv) (surveyId errorMessage homedir iso : String) :
    ∃ rest, (runFallbackPlain env surveyId errorMessage homedir iso).1 =
      ToolEffect.startExport "csv" none :: rest := by
  unfold runFallbackPlain
  split
  · exact ⟨[], rfl⟩
  · split
    · exact ⟨_, rfl⟩
    · exact ⟨_, rfl⟩
    · split
      · exact ⟨_, rfl⟩
      · exact ⟨_, rfl⟩

theorem runFallbackPlain_not_inline (env : ExportEnv) (surveyId errorMessage homedir iso : String)
    (fmt : Option String) (n : Nat) (d : InlineData) (q f : String) :
    (runFallbackPlain env surveyId errorMessage homedir iso).2 ≠
      ToolResult.completedInline fmt n d q f := by
  unfold runFallbackPlain
  split
  · simp
  · split
    · simp
    · simp
    · split
      · simp
      · simp

/-- Claim C5: with waitForCompletion requested and the remote job reporting
percent complete 30 then 60 then 100, the handler sleeps 10000 ms before each
of exactly 3 status checks, treats only the check reporting exactly 100 as
completion, and then downloads exactly once using the file id ("FID-2")
returned by that completing third check. -/
theorem c5_poll_sequence_three_checks_one_download :
    exportResponsesTool pollDemoEnv ⟨"SV1", some "json", some true, none⟩ "H" "TS" =
      ([ToolEffect.startExport "json" none,
        ToolEffect.sleep 10000, ToolEffect.checkStatus "PID-1",
        ToolEffect.sleep 10000, ToolEffect.checkStatus "PID-1",
        ToolEffect.sleep 10000, ToolEffect.checkStatus "PID-1",
        ToolEffect.downloadFile "FID-2"],
       ToolResult.completedInline (some "json") 4 InlineData.jsonParsed "PID-1" "FID-2") ∧
    ((exportResponsesTool pollDemoEnv ⟨"SV1", some "json", some true, none⟩ "H" "TS").1.countP
      isCheckStatusEff = 3) ∧
    ((exportResponsesTool pollDemoEnv ⟨"SV1", some "json", some true, none⟩ "H" "TS").1.countP
      isDownloadEff = 1) ∧
    pollDemoEnv.progressOf "PID-1" 2 = .ok ⟨100, "FID-2"⟩ :=
  ⟨by decide, by decide, by decide, by rfl⟩

/-- Claim C6: when every one of the 30 status checks reports a percent complete
other than 100 (and no call throws), the handler returns the non-error
`timeout` result carrying the job's progress id, after exactly 30 sleep/check
pairs and with no download effect in its trace. -/
theorem c6_poll_budget_exhausted_returns_timeout (env : ExportEnv) (args : PlainArgs)
    (homedir isoTimestamp pid : String)
    (hstart : env.start (args.format.getD "json") none = .ok pid)
    (hwait : args.waitForCompletion = some true)
    (hnever : ∀ j, j < 30 → ∃ q, env.progressOf pid j = .ok q ∧ q.percentComplete ≠ 100) :
    exportResponsesTool env args homedir isoTimestamp =
      (ToolEffect.startExport (args.format.getD "json") none :: checkTrace pid 30,
       ToolResult.timeout pid) ∧
    ∀ f, ToolEffect.downloadFile f ∉ (exportResponsesTool env args homedir isoTimestamp).1 := by
  have hpoll := pollLoop_timesOut env pid 30 0
    (fun j hj => by rw [Nat.zero_add]; exact hnever j hj)
  have hmain : exportResponsesTool env args homedir isoTimestamp =
      (ToolEffect.startExport (args.format.getD "json") none :: checkTrace pid 30,
       ToolResult.timeout pid) := by
    simp only [exportResponsesTool, hstart, hwait, hpoll]
    rfl
  refine ⟨hmain, ?_⟩
  intro f hf
  rw [hmain] at hf
  simp only [List.mem_cons] at hf
  rcases hf with h | h
  · cases h
  · rcases mem_checkTrace pid _ 30 h with h2 | h2 <;> cases h2

/-- Claim C6, witness: a job stuck at 50 percent makes the handler return
`timeout` with its progress id and no download. -/
theorem c6_poll_budget_exhausted_returns_timeout_witness :
    exportResponsesTool stuckEnv ⟨"SV6", some "json", some true, none⟩ "H" "TS" =
      (ToolEffect.startExport "json" none :: checkTrace "PID-6" 30,
       ToolResult.timeout "PID-6") ∧
    ToolEffect.downloadFile "F" ∉
      (exportResponsesTool stuckEnv ⟨"SV6", some "json", some true, none⟩ "H" "TS").1 :=
  have h := c6_poll_budget_exhausted_returns_timeout stuckEnv
    ⟨"SV6", some "json", some true, none⟩ "H" "TS" "PID-6" rfl rfl
    (fun j hj => ⟨⟨50, "F"⟩, rfl, by decide⟩)
  ⟨h.1, h.2 "F"⟩

/-- Claim C8: after a successful completion and download (with no explicit save
request, and JSON parsing succeeding where it applies), a payload whose UTF-8
byte size strictly exceeds 100 KiB (102400 bytes) is persisted — the result is
the saved variant with the auto-saved flag, a save effect appears in the trace,
and no inline result is possible — while a payload of exactly 102400 bytes is
returned inline: the threshold is exclusive above 100 KiB. -/
theorem c8_size_threshold_exclusive_above_100KiB (env : ExportEnv) (args : PlainArgs)
    (homedir isoTimestamp pid : String) (p : ExportProgress) (i : Nat) (fileData : String)
    (hstart : env.start (args.format.getD "json") none = .ok pid)
    (hwait : args.waitForCompletion = some true)
    (hsave : args.saveToFile = none)
    (hi : i < 30)
    (hprev : ∀ j, j < i → ∃ q, env.progressOf pid j = .ok q ∧ q.percentComplete ≠ 100)
    (hdone : env.progressOf pid i = .ok p) (hp : p.percentComplete = 100)
    (hdl : env.download p.fileId = .ok fileData)
    (hparse : args.format = some "json" → env.parseJson fileData = .ok ()) :
    (100 * 1024 < fileData.utf8ByteSize →
      exportResponsesTool env args homedir isoTimestamp =
        (ToolEffect.startExport (args.format.getD "json") none :: (checkTrace pid (i + 1) ++
          [ToolEffect.downloadFile p.fileId,
           ToolEffect.saveFile (saveExportToFile fileData args.surveyId (args.format.getD "json")
             none none homedir isoTimestamp).filePath]),
         ToolResult.completedSaved args.format
           (saveExportToFile fileData args.surveyId (args.format.getD "json") none none homedir
             isoTimestamp).filePath
           fileData.utf8ByteSize true pid p.fileId) ∧
      ∀ fmt n d q f, (exportResponsesTool env args homedir isoTimestamp).2 ≠
        ToolResult.completedInline fmt n d q f) ∧
    (fileData.utf8ByteSize = 100 * 1024 →
      exportResponsesTool env args homedir isoTimestamp =
        (ToolEffect.startExport (args.format.getD "json") none :: (checkTrace pid (i + 1) ++
          [ToolEffect.downloadFile p.fileId]),
         ToolResult.completedInline args.format (100 * 1024)
           (if args.format = some "json" then InlineData.jsonParsed else InlineData.raw fileData)
           pid p.fileId)) := by
  have hpoll := pollLoop_completes env pid p i 0 30 hi
    (fun j hj => by rw [Nat.zero_add]; exact hprev j hj)
    (by rw [Nat.zero_add]; exact hdone) hp
  constructor
  · intro hlarge
    have hmain : exportResponsesTool env args homedir isoTimestamp =
        (ToolEffect.startExport (args.format.getD "json") none :: (checkTrace pid (i + 1) ++
          [ToolEffect.downloadFile p.fileId,
           ToolEffect.saveFile (saveExportToFile fileData args.surveyId (args.format.getD "json")
             none none homedir isoTimestamp).filePath]),
         ToolResult.completedSaved args.format
           (saveExportToFile fileData args.surveyId (args.format.getD "json") none none homedir
             isoTimestamp).filePath
           fileData.utf8ByteSize true pid p.fileId) := by
      simp only [exportResponsesTool, hstart, hwait, hpoll, hdl, hsave]
      rw [if_pos (Or.inr hlarge)]
      rw [saveExportToFile_fileSizeBytes, saveExportToFile_wasAutoSaved_auto _ _ _ _ _ _ hlarge]
      rfl
    refine ⟨hmain, ?_⟩
    intro fmt n d q f
    rw [hmain]
    simp
  · intro hsize
    have hcond : ¬ (optTruthy args.saveToFile = true ∨ 100 * 1024 < fileData.utf8ByteSize) := by
      rw [hsave, hsize]
      simp [optTruthy]
    simp only [exportResponsesTool, hstart, hwait, hpoll, hdl]
    rw [if_neg hcond]
    by_cases hf : args.format = some "json"
    · rw [if_pos hf, if_pos hf, hparse hf, hsize]
      rfl
    · rw [if_neg hf, if_neg hf, hsize]
      rfl

/-- Claim C8, witness: a 102401-byte payload is auto-saved (never inline) and a
102400-byte payload with no save request comes back inline. -/
theorem c8_size_threshold_exclusive_above_100KiB_witness :
    100 * 1024 < (payloadOfSize (100 * 1024 + 1)).utf8ByteSize ∧
    (exportResponsesTool bigPayloadEnv ⟨"SV8", some "csv", some true, none⟩ "H" "TS").2 =
      ToolResult.completedSaved (some "csv")
        (saveExportToFile (payloadOfSize (100 * 1024 + 1)) "SV8" "csv" none none "H" "TS").filePath
        (payloadOfSize (100 * 1024 + 1)).utf8ByteSize true "PID-8" "FID-8" ∧
    (exportResponsesTool boundaryPayloadEnv ⟨"SV8b", some "csv", some true, none⟩ "H" "TS").2 =
      ToolResult.completedInline (some "csv") (100 * 1024)
        (InlineData.raw (payloadOfSize (100 * 1024))) "PID-8b" "FID-8b" :=
  have hlarge : 100 * 1024 < (payloadOfSize (100 * 1024 + 1)).utf8ByteSize := by
    rw [payloadOfSize_utf8ByteSize]; decide
  have hsize : (payloadOfSize (100 * 1024)).utf8ByteSize = 100 * 1024 :=
    payloadOfSize_utf8ByteSize (100 * 1024)
  have hbig := c8_size_threshold_exclusive_above_100KiB bigPayloadEnv
    ⟨"SV8", some "csv", some true, none⟩ "H" "TS" "PID-8" ⟨100, "FID-8"⟩ 0
    (payloadOfSize (100 * 1024 + 1)) rfl rfl rfl (by decide)
    (fun j hj => absurd hj (Nat.not_lt_zero j)) rfl rfl rfl
    (fun hc => absurd hc (by decide))
  have hbound := c8_size_threshold_exclusive_above_100KiB boundaryPayloadEnv
    ⟨"SV8b", some "csv", some true, none⟩ "H" "TS" "PID-8b" ⟨100, "FID-8b"⟩ 0
    (payloadOfSize (100 * 1024)) rfl rfl rfl (by decide)
    (fun j hj => absurd hj (Nat.not_lt_zero j)) rfl rfl rfl
    (fun hc => absurd hc (by decide))
  ⟨hlarge, congrArg Prod.snd (hbig.1 hlarge).1, congrArg Prod.snd (hbound.2 hsize)⟩

/-- Claim C10 (refuted when the format argument is omitted): with `format`
omitted, the primary export is started in JSON format (the default), yet
`args.format === "json"` is false, so a small artifact that is not valid JSON
is returned inline, raw and unparsed, with status `completed`; no JSON decoding
happens and no CSV fallback is started (exactly one start effect). -/
theorem c10_omitted_format_returns_unparsed_inline :
    exportResponsesTool badJsonEnv ⟨"SV9", none, some true, none⟩ "H" "TS" =
      ([ToolEffect.startExport "json" none, ToolEffect.sleep 10000,
        ToolEffect.checkStatus "PID-9", ToolEffect.downloadFile "FID-9"],
       ToolResult.completedInline none 8 (InlineData.raw "not-json") "PID-9" "FID-9") ∧
    badJsonEnv.parseJson "not-json" = .error "Unexpected token" ∧
    ((exportResponsesTool badJsonEnv ⟨"SV9", none, some true, none⟩ "H" "TS").1.countP
      isStartEff = 1) :=
  ⟨by decide, by rfl, by decide⟩

/-- Claim C10, amended: when the format argument is explicitly "json" and the
completed artifact is small enough for the inline path but fails JSON parsing,
the parse failure is caught by the main try block and the CSV fallback export
is started (the continuation is exactly `runFallbackPlain` on the parse error
message, whose first effect is starting a CSV export), and the caller never
receives a `completed` inline result. -/
theorem c10_explicit_json_parse_failure_starts_fallback (env : ExportEnv) (args : PlainArgs)
    (homedir isoTimestamp pid pmsg : String) (p : ExportProgress) (i : Nat) (fileData : String)
    (hfmt : args.format = some "json")
    (hstart : env.start "json" none = .ok pid)
    (hwait : args.waitForCompletion = some true)
    (hsavef : optTruthy args.saveToFile = false)
    (hi : i < 30)
    (hprev : ∀ j, j < i → ∃ q, env.progressOf pid j = .ok q ∧ q.percentComplete ≠ 100)
    (hdone : env.progressOf pid i = .ok p) (hp : p.percentComplete = 100)
    (hdl : env.download p.fileId = .ok fileData)
    (hsmall : ¬ 100 * 1024 < fileData.utf8ByteSize)
    (hparse : env.parseJson fileData = .error pmsg) :
    exportResponsesTool env args homedir isoTimestamp =
      (ToolEffect.startExport "json" none :: (checkTrace pid (i + 1) ++
        [ToolEffect.downloadFile p.fileId] ++
        (runFallbackPlain env args.surveyId pmsg homedir isoTimestamp).1),
       (runFallbackPlain env args.surveyId pmsg homedir isoTimestamp).2) ∧
    (∃ rest, (runFallbackPlain env args.surveyId pmsg homedir isoTimestamp).1 =
      ToolEffect.startExport "csv" none :: rest) ∧
    ∀ fmt n d q f, (exportResponsesTool env args homedir isoTimestamp).2 ≠
      ToolResult.completedInline fmt n d q f := by
  have hpoll := pollLoop_completes env pid p i 0 30 hi
    (fun j hj => by rw [Nat.zero_add]; exact hprev j hj)
    (by rw [Nat.zero_add]; exact hdone) hp
  have hfmtd : args.format.getD "json" = "json" := by rw [hfmt]; rfl
  have hcond : ¬ (optTruthy args.saveToFile = true ∨ 100 * 1024 < fileData.utf8ByteSize) := by
    simp [hsavef, hsmall]
  have hmain : exportResponsesTool env args homedir isoTimestamp =
      (ToolEffect.startExport "json" none :: (checkTrace pid (i + 1) ++
        [ToolEffect.downloadFile p.fileId] ++
        (runFallbackPlain env args.surveyId pmsg homedir isoTimestamp).1),
       (runFallbackPlain env args.surveyId pmsg homedir isoTimestamp).2) := by
    simp only [exportResponsesTool, hfmtd, hstart, hwait, hpoll, hdl]
    rw [if_neg hcond, if_pos hfmt, hparse]
    rfl
  refine ⟨hmain, runFallbackPlain_starts_csv env args.surveyId pmsg homedir isoTimestamp, ?_⟩
  intro fmt n d q f
  rw [hmain]
  exact runFallbackPlain_not_inline env args.surveyId pmsg homedir isoTimestamp fmt n d q f

/-- Claim C10, witness: with format explicitly "json" against the invalid-JSON
environment, the result is the fallback result, the fallback trace begins by
starting a CSV export, and no inline completed result is produced. -/
theorem c10_explicit_json_parse_failure_starts_fallback_witness :
    (exportResponsesTool badJsonEnv ⟨"SV9j", some "json", some true, none⟩ "H" "TS").2 =
      (runFallbackPlain badJsonEnv "SV9j" "Unexpected token" "H" "TS").2 ∧
    (runFallbackPlain badJsonEnv "SV9j" "Unexpected token" "H" "TS").1.take 1 =
      [ToolEffect.startExport "csv" none] ∧
    (exportResponsesTool badJsonEnv ⟨"SV9j", some "json", some true, none⟩ "H" "TS").2 ≠
      ToolResult.completedInline (some "json") 8 InlineData.jsonParsed "PID-9" "FID-9" :=
  have h := c10_explicit_json_parse_failure_starts_fallback badJsonEnv
    ⟨"SV9j", some "json", some true, none⟩ "H" "TS" "PID-9" "Unexpected token"
    ⟨100, "FID-9"⟩ 0 "not-json" rfl rfl rfl rfl (by decide)
    (fun j hj => absurd hj (Nat.not_lt_zero j)) rfl rfl rfl (by decide) rfl
  have hstartfx : (runFallbackPlain badJsonEnv "SV9j" "Unexpected token" "H" "TS").1.take 1 =
      [ToolEffect.startExport "csv" none] := by
    obtain ⟨rest, hr⟩ := h.2.1
    rw [hr]
    rfl
  ⟨by rw [h.1], hstartfx,
   h.2.2 (some "json") 8 InlineData.jsonParsed "PID-9" "FID-9"⟩

/-- Claim C4: if starting the primary filtered export throws, the handler
starts exactly one fallback export, in CSV format, whose filter object keeps
only the date range and the mapped completion-status filter (question-subset,
embedded-data, display-order and label filters are all dropped); and when the
fallback's reported percent complete reaches 100 the result is
`completed_via_fallback` carrying the original error message. -/
theorem c4_fallback_csv_reduced_filters (env : ExportEnv) (args : FilteredArgs)
    (homedir isoTimestamp e fpid : String) (p : ExportProgress) (i : Nat) (fileData : String)
    (hstart : env.start (args.format.getD "json") (filtersArg (buildFilters args)) = .error e)
    (hfb : env.start "csv" (filtersArg (buildFallbackFilters args)) = .ok fpid)
    (hi : i < 30)
    (hprev : ∀ j, j < i → ∃ q, env.progressOf fpid j = .ok q ∧ q.percentComplete ≠ 100)
    (hdone : env.progressOf fpid i = .ok p) (hp : p.percentComplete = 100)
    (hdl : env.download p.fileId = .ok fileData) :
    exportResponsesFilteredTool env args homedir isoTimestamp =
      (ToolEffect.startExport (args.format.getD "json") (filtersArg (buildFilters args)) ::
        (ToolEffect.startExport "csv" (filtersArg (buildFallbackFilters args)) ::
         (checkTrace fpid (i + 1) ++
          [ToolEffect.downloadFile p.fileId,
           ToolEffect.saveFile (saveExportToFile fileData args.surveyId "csv" none (some "filtered")
             homedir isoTimestamp).filePath])),
       ToolResult.completedViaFallback e
         (saveExportToFile fileData args.surveyId "csv" none (some "filtered") homedir
           isoTimestamp).filePath
         (saveExportToFile fileData args.surveyId "csv" none (some "filtered") homedir
           isoTimestamp).fileSizeBytes fpid p.fileId) ∧
    ((exportResponsesFilteredTool env args homedir isoTimestamp).1.countP isStartEff = 2) ∧
    (buildFallbackFilters args).questionIds = none ∧
    (buildFallbackFilters args).embeddedDataIds = none ∧
    (buildFallbackFilters args).includeDisplayOrder = none ∧
    (buildFallbackFilters args).useLabels = none ∧
    (buildFallbackFilters args).startDate = (buildFilters args).startDate ∧
    (buildFallbackFilters args).endDate = (buildFilters args).endDate ∧
    (buildFallbackFilters args).filterType = (buildFilters args).filterType := by
  have hpoll := pollLoop_completes env fpid p i 0 30 hi
    (fun j hj => by rw [Nat.zero_add]; exact hprev j hj)
    (by rw [Nat.zero_add]; exact hdone) hp
  have hmain : exportResponsesFilteredTool env args homedir isoTimestamp =
      (ToolEffect.startExport (args.format.getD "json") (filtersArg (buildFilters args)) ::
        (ToolEffect.startExport "csv" (filtersArg (buildFallbackFilters args)) ::
         (checkTrace fpid (i + 1) ++
          [ToolEffect.downloadFile p.fileId,
           ToolEffect.saveFile (saveExportToFile fileData args.surveyId "csv" none (some "filtered")
             homedir isoTimestamp).filePath])),
       ToolResult.completedViaFallback e
         (saveExportToFile fileData args.surveyId "csv" none (some "filtered") homedir
           isoTimestamp).filePath
         (saveExportToFile fileData args.surveyId "csv" none (some "filtered") homedir
           isoTimestamp).fileSizeBytes fpid p.fileId) := by
    simp only [exportResponsesFilteredTool, hstart, runFallbackFiltered, hfb, hpoll, hdl]
    rfl
  have hct := checkTrace_countP fpid isStartEff rfl rfl (i + 1)
  refine ⟨hmain, ?_, rfl, rfl, rfl, rfl, rfl, rfl, rfl⟩
  rw [hmain]
  simp [List.countP_cons, List.countP_append, isStartEff, hct]

/-- Claim C4, witness: against an environment whose non-CSV start throws
"boom", the filtered handler (asked for json with a question subset and a
completion filter) ends `completed_via_fallback` carrying "boom", with exactly
two start effects, and the fallback filter object drops the question subset. -/
theorem c4_fallback_csv_reduced_filters_witness :
    (exportResponsesFilteredTool failingPrimaryEnv
        ⟨"SV4", some "json", some true, none, none, none, some "complete", none, none,
         some ["QID1"], none⟩ "H" "TS").2 =
      ToolResult.completedViaFallback "boom"
        (saveExportToFile "csvdata" "SV4" "csv" none (some "filtered") "H" "TS").filePath
        (saveExportToFile "csvdata" "SV4" "csv" none (some "filtered") "H" "TS").fileSizeBytes
        "FPID-4" "FID-4" ∧
    ((exportResponsesFilteredTool failingPrimaryEnv
        ⟨"SV4", some "json", some true, none, none, none, some "complete", none, none,
         some ["QID1"], none⟩ "H" "TS").1.countP isStartEff = 2) ∧
    (buildFilters ⟨"SV4", some "json", some true, none, none, none, some "complete", none, none,
      some ["QID1"], none⟩).questionIds = some ["QID1"] ∧
    (buildFallbackFilters ⟨"SV4", some "json", some true, none, none, none, some "complete", none,
      none, some ["QID1"], none⟩).questionIds = none :=
  have h := c4_fallback_csv_reduced_filters failingPrimaryEnv
    ⟨"SV4", some "json", some true, none, none, none, some "complete", none, none,
     some ["QID1"], none⟩ "H" "TS" "boom" "FPID-4" ⟨100, "FID-4"⟩ 0 "csvdata"
    rfl rfl (by decide) (fun j hj => absurd hj (Nat.not_lt_zero j)) rfl rfl rfl
  ⟨by rw [h.1], h.2.1, rfl, h.2.2.1⟩
